import Mathlib

/-!
# P2PChat browser client (`static/app.js`)

A shallow embedding of the chat UI controller and the properties of its handlers.

The script is a set of event handlers over one mutable record (`state`), ten DOM
elements and one WebSocket.  The embedding is explicit state passing: `State` holds
`state`, the contents of the DOM elements the script reads or writes, the ready state of
the socket, and two logs kept by the environment (the frames sent on the channel, the
texts handed to `alert`).  Every handler of the script is a function `State → State`; `step`
dispatches an event to its handler and `run` folds a sequence of events.

The language is embedded as ECMAScript defines it.  Strings are JavaScript strings,
sequences of UTF-16 code units; `trim`, `slice`, `parseInt`, truthiness, `||`, `===`,
property reads and the conversion of a value to text (`ToString`, which throws for some
objects) are the standard's.  A handler that throws stops there; what it wrote before
stays written.  `JSON.parse` itself is not embedded: an inbound frame is given by the
result of parsing it (`none` when parsing throws).

The host objects are embedded as stores and logs:

* the ten elements looked up on lines 3-12 exist, and `value` and `textContent` are the
  DOM attributes of those names, which store the text of what is assigned;
* the socket of line 2 is constructed; its `readyState` is part of the state, changed by
  the channel events; `ws.send` throws while the socket is connecting, sends the frame
  while it is open, and drops it without error once it is closing or closed.  A frame is
  given by the JSON value its text denotes;
* `alert` records its text; `messagesEl.scrollTop` is layout and is left out.
-/

set_option maxRecDepth 8000

namespace P2PChat

/-! ## JavaScript strings -/

/-- One UTF-16 code unit. -/
abbrev CodeUnit := Fin 65536

/-- A JavaScript string: its sequence of UTF-16 code units. -/
abbrev JSString := List CodeUnit

/-- The code unit with the given number. -/
def codeUnit (n : Nat) : CodeUnit := ⟨n % 65536, Nat.mod_lt _ (by decide)⟩

/-- UTF-16 encoding of one Unicode scalar value. -/
def utf16Char (c : Char) : JSString :=
  if c.toNat < 0x10000 then [codeUnit c.toNat]
  else [codeUnit (0xD800 + (c.toNat - 0x10000) / 0x400),
        codeUnit (0xDC00 + (c.toNat - 0x10000) % 0x400)]

/-- The JavaScript string written as the given literal. -/
def utf16 (s : String) : JSString := s.toList.flatMap utf16Char

/-- ECMAScript WhiteSpace and LineTerminator code points, the set `String.prototype.trim`
and `parseInt` strip: TAB, LF, VT, FF, CR, SP, NBSP, U+1680, U+2000..U+200A, U+2028,
U+2029, U+202F, U+205F, U+3000, U+FEFF. -/
def isWhiteSpace (c : CodeUnit) : Bool :=
  (0x09 ≤ c.val && c.val ≤ 0x0D) || c.val == 0x20 || c.val == 0xA0 || c.val == 0x1680 ||
  (0x2000 ≤ c.val && c.val ≤ 0x200A) || c.val == 0x2028 || c.val == 0x2029 ||
  c.val == 0x202F || c.val == 0x205F || c.val == 0x3000 || c.val == 0xFEFF

/-- `String.prototype.trim`: white space removed from both ends. -/
def trim (s : JSString) : JSString :=
  (s.dropWhile isWhiteSpace).rdropWhile isWhiteSpace

/-- `String.prototype.slice(0, n)`: the first `n` code units (all of them when the
string is shorter). -/
def slice0 (s : JSString) (n : Nat) : JSString := s.take n

/-- A decimal digit. -/
def isDigit (c : CodeUnit) : Bool := 0x30 ≤ c.val && c.val ≤ 0x39

/-- The number written by a sequence of decimal digits. -/
def digitsValue (ds : JSString) : Nat :=
  ds.foldl (fun acc c => 10 * acc + (c.val - 0x30)) 0

/-- A JavaScript number whose value is an integer, or an infinity: what `parseInt`
returns when it does not return `NaN`.  The two zeros are one value here. -/
inductive NumberValue where
  | finite (value : Int)
  | infinity (negative : Bool)
deriving DecidableEq, Repr

/-- The least `e` with `n < 2 ^ (53 + e)`, searched with the given fuel. -/
def excessBits : Nat → Nat → Nat
  | 0, _ => 0
  | fuel + 1, n => if n < 2 ^ 53 then 0 else excessBits fuel (n / 2) + 1

/-- The power `2 ^ e`. -/
def pow2 : Nat → Nat
  | 0 => 1
  | e + 1 => 2 * pow2 e

/-- The bound `2 ^ 1024` at which a double is an infinity. -/
def doubleLimit : Nat := pow2 1024

/-- The double nearest to a natural number, ties to the even significand: the number
itself below `2 ^ 53`, else its leading 53 bits rounded; `none` when the result reaches
`2 ^ 1024`, where the conversion gives `Infinity`. -/
def roundToDouble (n : Nat) : Option Nat :=
  let e := excessBits n n
  let q := n / pow2 e
  let r := n % pow2 e
  let q1 := if pow2 e < 2 * r ∨ (2 * r = pow2 e ∧ q % 2 = 1) then q + 1 else q
  if q1 * pow2 e < doubleLimit then some (q1 * pow2 e) else none

/-- `parseInt(s, 10)`: leading white space is skipped, one sign is read, then the
longest run of decimal digits; `none` is `NaN` (no digit).  The result is the double
nearest to the integer the digits write (engines convert with correct rounding; past 20
significant digits the standard also allows an approximation). -/
def parseInt (s : JSString) : Option NumberValue :=
  let s1 := s.dropWhile isWhiteSpace
  let negative := s1.head? == some (codeUnit 0x2D)
  let s2 := if s1.head? == some (codeUnit 0x2D) || s1.head? == some (codeUnit 0x2B)
            then s1.tail else s1
  let z := s2.takeWhile isDigit
  if z.isEmpty then none
  else
    match roundToDouble (digitsValue z) with
    | some v => some (.finite (if negative then -(v : Int) else (v : Int)))
    | none => some (.infinity negative)

/-- What `JSON.stringify` writes for a number that is not `NaN`: the number itself when
it is finite, `null` (here `none`) for an infinity. -/
def stringifyNumber : NumberValue → Option Int
  | .finite v => some v
  | .infinity _ => none

/-! ## JSON values -/

/-- A JSON number, given by what the script can observe of it: whether it is zero (its
truthiness) and its text (`ToString`), as `5000` for the number 5000. -/
structure JSNumber where
  /-- Whether the number is `0` or `-0`. -/
  isZero : Bool
  /-- The text `ToString` gives for the number. -/
  text : JSString
deriving DecidableEq, Repr

mutual
/-- A value produced by `JSON.parse`. -/
inductive JSON where
  | null
  | bool (b : Bool)
  | num (n : JSNumber)
  | str (s : JSString)
  | arr (elems : Elems)
  | obj (members : Members)
/-- The elements of a JSON array, in order. -/
inductive Elems where
  | nil
  | cons (head : JSON) (tail : Elems)
/-- The own properties of a JSON object, in the order of the text. -/
inductive Members where
  | nil
  | cons (key : JSString) (value : JSON) (tail : Members)
end

/-- The value of own property `k`; a later duplicate in the text wins. -/
def Members.get (k : JSString) : Members → Option JSON
  | .nil => none
  | .cons k2 v r =>
    match Members.get k r with
    | some w => some w
    | none => if k2 = k then some v else none

/-- Property read `data.k` for the names the script reads (`type`, `from_name`,
`message`, `status`, `port`, `public_key`), none of which a prototype defines:
`none` is `undefined`.  (On `null` the read throws; the caller tests for it.) -/
def JSON.prop (data : JSON) (k : JSString) : Option JSON :=
  match data with
  | .obj ms => ms.get k
  | _ => none

/-- Truthiness of a value; `none` is `undefined`. -/
def truthy : Option JSON → Bool
  | none => false
  | some .null => false
  | some (.bool b) => b
  | some (.num n) => !n.isZero
  | some (.str s) => !s.isEmpty
  | some (.arr _) => true
  | some (.obj _) => true

/-- The expression `a || b`. -/
def orElse (a : Option JSON) (b : JSON) : JSON :=
  match a with
  | some v => if truthy (some v) then v else b
  | none => b

/-- The test `a === "lit"` against a string. -/
def strictEq (a : Option JSON) (lit : JSString) : Bool :=
  match a with
  | some (.str s) => s == lit
  | _ => false

/-- The first `n` elements of an array (`Array.prototype.slice(0, n)`). -/
def Elems.take : Nat → Elems → Elems
  | 0, _ => .nil
  | _ + 1, .nil => .nil
  | n + 1, .cons x r => .cons x (Elems.take n r)

mutual
/-- `ToString(v)`; `none` when the conversion throws.  An object converts to
`[object Object]` unless it has an own `toString` property: a JSON value is never
callable, so the conversion then finds no usable method and throws a TypeError.
An array converts to its elements joined by commas. -/
def JSON.toText : JSON → Option JSString
  | .null => some (utf16 "null")
  | .bool b => some (if b then utf16 "true" else utf16 "false")
  | .num n => some n.text
  | .str s => some s
  | .arr xs => Elems.join xs
  | .obj ms =>
    match ms.get (utf16 "toString") with
    | some _ => none
    | none => some (utf16 "[object Object]")
/-- `Array.prototype.join` with the default separator: `null` elements give the
empty string, the others their `ToString`. -/
def Elems.join : Elems → Option JSString
  | .nil => some []
  | .cons x .nil => JSON.elemText x
  | .cons x (.cons y r) =>
    match JSON.elemText x, Elems.join (.cons y r) with
    | some a, some b => some (a ++ utf16 "," ++ b)
    | _, _ => none
/-- The text of one array element inside `join`. -/
def JSON.elemText : JSON → Option JSString
  | .null => some []
  | .bool b => some (if b then utf16 "true" else utf16 "false")
  | .num n => some n.text
  | .str s => some s
  | .arr xs => Elems.join xs
  | .obj ms =>
    match ms.get (utf16 "toString") with
    | some _ => none
    | none => some (utf16 "[object Object]")
end

/-- The text a `textContent` setter stores for a value: `null` and `undefined` give
the empty string, anything else its `ToString` (`none` when that throws). -/
def textContentOf : Option JSON → Option JSString
  | none => some []
  | some .null => some []
  | some v => v.toText

/-- The expression `v.slice(0, 30) + "..."` for a truthy value `v`; `none` when it
throws: a string is cut to 30 code units, an array to 30 elements and then joined,
and any other value has no callable `slice`. -/
def sliceEllipsis : JSON → Option JSString
  | .str s => some (slice0 s 30 ++ utf16 "...")
  | .arr xs =>
    match Elems.join (xs.take 30) with
    | some t => some (t ++ utf16 "...")
    | none => none
  | _ => none

/-! ## State -/

/-- One child of `messagesEl`: the `div` built by `appendMessage`. -/
structure Bubble where
  /-- The `className` of the bubble. -/
  className : JSString
  /-- The text of the `msg-label` child, when there is one. -/
  label : Option JSString
  /-- The text of the body child. -/
  body : JSString
deriving DecidableEq, Repr

/-- A frame built by `JSON.stringify` for `ws.send`, given by the JSON value its text
denotes; the port of `connect_peer` is a number or `null` (here `none`). -/
inductive Outbound where
  | send_message (message : JSString) (display_name : JSString)
  | connect_peer (ip : JSString) (port : Option Int)
deriving DecidableEq, Repr

/-- The values of `ws.readyState`. -/
inductive ReadyState where
  | CONNECTING
  | OPEN
  | CLOSING
  | CLOSED
deriving DecidableEq, Repr

/-- The `state` record, the DOM contents the script touches, the ready state of the
socket, and the two logs. -/
structure State where
  /-- Attribute `ws.readyState`. -/
  readyState : ReadyState
  /-- Field `state.connected`. -/
  connected : Bool
  /-- Field `state.displayName`. -/
  displayName : JSString
  /-- Text of `statusEl`. -/
  statusEl : JSString
  /-- Children of `messagesEl`, oldest first. -/
  messagesEl : List Bubble
  /-- Value of the compose field `chatInput`. -/
  chatInput : JSString
  /-- Value of the name field `displayNameInput`. -/
  displayNameInput : JSString
  /-- Value of the field `remoteIpInput`. -/
  remoteIpInput : JSString
  /-- Value of the field `remotePortInput`. -/
  remotePortInput : JSString
  /-- Value of `myPortEl`. -/
  myPortEl : JSString
  /-- Value of `myPubKeyEl`. -/
  myPubKeyEl : JSString
  /-- Frames sent on the channel, oldest first. -/
  sent : List Outbound
  /-- Texts handed to `alert`, oldest first. -/
  alerts : List JSString
deriving DecidableEq, Repr

/-- The state once the script has run on a page: the socket of line 2 is connecting,
`state` is `{ connected: false, displayName: "" }`, nothing was sent or alerted, and the
DOM contents are those of the page. -/
def init (page : State) : State :=
  { page with
    readyState := .CONNECTING, connected := false, displayName := [], sent := [],
    alerts := [] }

/-! ## Handlers -/

/-- The `className` given to the bubble (line 21). -/
def bubbleClass (who : JSString) : JSString :=
  if who == utf16 "me" then utf16 "msg me" else utf16 "msg peer"

/-- The label child built for `name` (lines 22-27): none when `name` is falsy, else one
holding its text; the outer `none` is a `textContent` write that throws. -/
def labelFor (name : Option JSON) : Option (Option JSString) :=
  if truthy name then (textContentOf name).map some else some none

/-- Function `appendMessage(text, who, name)`; `none` when a `textContent` write
throws, which happens before the bubble is attached, so nothing changed. -/
def appendMessage (s : State) (text : Option JSON) (who : JSString) (name : Option JSON) :
    Option State :=
  match labelFor name, textContentOf text with
  | some label, some body =>
    some { s with messagesEl :=
      s.messagesEl ++ [{ className := bubbleClass who, label := label, body := body }] }
  | _, _ => none

/-- Function `saveDisplayName`. -/
def saveDisplayName (s : State) : State :=
  let t := trim s.displayNameInput
  { s with displayName := if t.isEmpty then [] else t }

/-- Handler `ws.onopen`. -/
def ws.onopen (s : State) : State :=
  { s with statusEl := utf16 "Connected to local peer" }

/-- Line 51, `if (data.port) myPortEl.value = data.port;`; `none` when the conversion
of the port to text throws. -/
def writePort (s : State) (data : JSON) : Option State :=
  match data.prop (utf16 "port") with
  | none => some s
  | some port =>
    if truthy (some port) then
      match port.toText with
      | some t => some { s with myPortEl := t }
      | none => none
    else some s

/-- Line 52, `if (data.public_key) myPubKeyEl.value = data.public_key.slice(0, 30) + "..."`;
nothing is written when the expression throws. -/
def writeKey (s : State) (data : JSON) : State :=
  match data.prop (utf16 "public_key") with
  | none => s
  | some key =>
    if truthy (some key) then
      match sliceEllipsis key with
      | some t => { s with myPubKeyEl := t }
      | none => s
    else s

/-- The `info` branch of `ws.onmessage`: the port write, then the key write. -/
def onInfo (s : State) (data : JSON) : State :=
  match writePort s data with
  | none => s
  | some s1 => writeKey s1 data

/-- The branches of `ws.onmessage` on `data.type` (lines 45-53). -/
def dispatch (s : State) (data : JSON) : State :=
  if strictEq (data.prop (utf16 "type")) (utf16 "peer_message") then
    let fromName := orElse (data.prop (utf16 "from_name")) (.str (utf16 "Peer"))
    match appendMessage s (some (orElse (data.prop (utf16 "message")) (.str (utf16 ""))))
        (utf16 "peer") (some fromName) with
    | some s1 => s1
    | none => s
  else if strictEq (data.prop (utf16 "type")) (utf16 "status") then
    match textContentOf (data.prop (utf16 "status")) with
    | some t => { s with statusEl := t }
    | none => s
  else if strictEq (data.prop (utf16 "type")) (utf16 "info") then
    onInfo s data
  else s

/-- Handler `ws.onmessage`, given the result of `JSON.parse(event.data)`: nothing
happens when parsing throws, nor when the value is `null` (reading `data.type` throws). -/
def ws.onmessage (s : State) (parsed : Option JSON) : State :=
  match parsed with
  | none => s
  | some .null => s
  | some data => dispatch s data

/-- Handler `ws.onclose`. -/
def ws.onclose (s : State) : State :=
  { s with statusEl := utf16 "Disconnected" }

/-- Method `ws.send(frame)`: it throws (`none`) while the socket is connecting, sends the
frame while the socket is open, and drops it without error once the socket is closing or
closed. -/
def ws.send (s : State) (frame : Outbound) : Option State :=
  match s.readyState with
  | .CONNECTING => none
  | .OPEN => some { s with sent := s.sent ++ [frame] }
  | .CLOSING => some s
  | .CLOSED => some s

/-- Function `sendMessage`; when `ws.send` throws, lines 65-66 do not run. -/
def sendMessage (s : State) : State :=
  let msg := trim s.chatInput
  if msg.isEmpty then s
  else
    let s1 := saveDisplayName s
    match ws.send s1 (Outbound.send_message msg s1.displayName) with
    | none => s1
    | some s2 =>
      match appendMessage s2 (some (.str msg)) (utf16 "me")
          (some (orElse (some (.str s2.displayName)) (.str (utf16 "Me")))) with
      | some s3 => { s3 with chatInput := [] }
      | none => s2

/-- The text of the validation alert. -/
def alertText : JSString := utf16 "Isi IP dan port yang valid"

/-- Handler `btnConnect.onclick`; a throw of `ws.send` ends it. -/
def btnConnect.onclick (s : State) : State :=
  let s1 := saveDisplayName s
  let ip := trim s1.remoteIpInput
  match ip.isEmpty, parseInt (trim s1.remotePortInput) with
  | false, some port =>
    match ws.send s1 (Outbound.connect_peer ip (stringifyNumber port)) with
    | some s2 => s2
    | none => s1
  | _, _ => { s1 with alerts := s1.alerts ++ [alertText] }

/-- What a `keydown` listener reads of its event. -/
structure KeyEvent where
  /-- Field `e.key`. -/
  key : JSString
  /-- Field `e.shiftKey`. -/
  shiftKey : Bool
deriving DecidableEq, Repr

/-- The `keydown` listener of `chatInput`. -/
def chatInput_keydown (s : State) (e : KeyEvent) : State :=
  if e.key == utf16 "Enter" && !e.shiftKey then sendMessage s else s

/-- The `keydown` listener of `displayNameInput`. -/
def displayNameInput_keydown (s : State) (e : KeyEvent) : State :=
  if e.key == utf16 "Enter" then saveDisplayName s else s

/-! ## Events -/

/-- The four fields the user edits. -/
inductive Field where
  | chatInput
  | displayName
  | remoteIp
  | remotePort
deriving DecidableEq, Repr

/-- What can happen to the page once the script has run. -/
inductive Event where
  /-- The channel opened: the ready state becomes `OPEN` and `open` fires. -/
  | wsOpen
  /-- A frame arrived; the argument is the result of `JSON.parse(event.data)`. -/
  | wsMessage (parsed : Option JSON)
  /-- The closing handshake started: the ready state becomes `CLOSING`. -/
  | wsClosing
  /-- The channel closed: the ready state becomes `CLOSED` and `close` fires. -/
  | wsClose
  /-- Click on `btnSend`. -/
  | clickSend
  /-- Click on `btnConnect`. -/
  | clickConnect
  /-- A field lost focus. -/
  | blur (f : Field)
  /-- A key went down in a field. -/
  | keydown (f : Field) (e : KeyEvent)
  /-- The user changed the value of a field. -/
  | edit (f : Field) (value : JSString)

/-- The listeners registered by the script, by event. -/
def step (s : State) : Event → State
  | .wsOpen => ws.onopen { s with readyState := .OPEN }
  | .wsMessage parsed => ws.onmessage s parsed
  | .wsClosing => { s with readyState := .CLOSING }
  | .wsClose => ws.onclose { s with readyState := .CLOSED }
  | .clickSend => sendMessage s
  | .clickConnect => btnConnect.onclick s
  | .blur .displayName => saveDisplayName s
  | .blur .remotePort => saveDisplayName s
  | .blur _ => s
  | .keydown .chatInput e => chatInput_keydown s e
  | .keydown .displayName e => displayNameInput_keydown s e
  | .keydown _ _ => s
  | .edit .chatInput v => { s with chatInput := v }
  | .edit .displayName v => { s with displayNameInput := v }
  | .edit .remoteIp v => { s with remoteIpInput := v }
  | .edit .remotePort v => { s with remotePortInput := v }

/-- The state after a sequence of events, handled one at a time in order. -/
def run (s : State) (events : List Event) : State := events.foldl step s

/-- A string that neither starts nor ends with white space. -/
def isTrimmed (s : JSString) : Bool :=
  (s.head?.all fun c => !isWhiteSpace c) && (s.getLast?.all fun c => !isWhiteSpace c)

/-- A page with every field empty, its socket connecting. -/
def blankPage : State :=
  { readyState := .CONNECTING, connected := false, displayName := [], statusEl := [], messagesEl := [],
    chatInput := [], displayNameInput := [], remoteIpInput := [], remotePortInput := [],
    myPortEl := [], myPubKeyEl := [], sent := [], alerts := [] }

/-- The JSON object with the given string-valued members. -/
def objOf : List (String × JSON) → Members
  | [] => .nil
  | (k, v) :: r => .cons (utf16 k) v (objOf r)

/-- What one handler run may do to the record `state`, the message list and the outbound
log: `connected` is kept, `displayName` is kept or becomes the trimmed name field, and
each of the two lists gets at most one entry more, at its end. -/
def StepEffect (s s1 : State) : Prop :=
  s1.connected = s.connected ∧
  (s1.displayName = s.displayName ∨ s1.displayName = trim s.displayNameInput) ∧
  (∃ bs : List Bubble, bs.length ≤ 1 ∧ s1.messagesEl = s.messagesEl ++ bs) ∧
  (∃ ms : List Outbound, ms.length ≤ 1 ∧ s1.sent = s.sent ++ ms)

/-- The bubbles one event adds: what the message list holds past its old length. -/
def newBubbles (s : State) (e : Event) : List Bubble :=
  (step s e).messagesEl.drop s.messagesEl.length

/-- The frames one event sends: what the outbound log holds past its old length. -/
def newSent (s : State) (e : Event) : List Outbound :=
  (step s e).sent.drop s.sent.length

/-- The bubbles added by a sequence of events, event by event in order. -/
def bubblesOfRun (s : State) : List Event → List Bubble
  | [] => []
  | e :: es => newBubbles s e ++ bubblesOfRun (step s e) es

/-- The frames sent by a sequence of events, event by event in order. -/
def sentOfRun (s : State) : List Event → List Outbound
  | [] => []
  | e :: es => newSent s e ++ sentOfRun (step s e) es

/-! ## Concrete inputs -/

/-- The frame `{"type":"peer_message","from_name":"","message":"hi"}`. -/
def emptyNameFrame : JSON :=
  .obj (objOf [("type", .str (utf16 "peer_message")), ("from_name", .str (utf16 "")),
    ("message", .str (utf16 "hi"))])

/-- The frame `{"type":"peer_message","from_name":"Alice","message":"hi"}`. -/
def aliceFrame : JSON :=
  .obj (objOf [("type", .str (utf16 "peer_message")), ("from_name", .str (utf16 "Alice")),
    ("message", .str (utf16 "hi"))])

/-- The number 5000. -/
def portNumber : JSNumber := { isZero := false, text := utf16 "5000" }

/-- A public key of 40 code units. -/
def longKey : JSString := utf16 "MIIBIjANBgkqhkiG9w0BAQEFAAOCAQ8AMIIBCgKC"

/-- The frame `{"type":"info","port":5000,"public_key":…}` carrying `longKey`. -/
def longKeyFrame : JSON :=
  .obj (objOf [("type", .str (utf16 "info")), ("port", .num portNumber),
    ("public_key", .str longKey)])

/-- The frame `{"type":"info","port":5000,"public_key":"abc"}`. -/
def shortKeyFrame : JSON :=
  .obj (objOf [("type", .str (utf16 "info")), ("port", .num portNumber),
    ("public_key", .str (utf16 "abc"))])

/-- A public key of 33 code units that ends in three full stops. -/
def dottedKey : JSString := utf16 "AAAAAAAAAAAAAAAAAAAAAAAAAAAAAA..."

/-- The frame `{"type":"info","public_key":…}` carrying `dottedKey`. -/
def dottedKeyFrame : JSON :=
  .obj (objOf [("type", .str (utf16 "info")), ("public_key", .str dottedKey)])

/-- The initial state on a page whose name field holds `Alice` and whose remote-port
field holds `4000`, the compose field being empty. -/
def aliceTyped : State :=
  init { blankPage with displayNameInput := utf16 "Alice", remotePortInput := utf16 "4000" }

/-- A blank page with ` Alice ` in the name field and `hello` in the compose field. -/
def aliceComposing : State :=
  { blankPage with displayNameInput := utf16 " Alice ", chatInput := utf16 "hello" }

/-- The same page once its channel has opened. -/
def aliceComposingOpen : State := { aliceComposing with readyState := .OPEN }

/-- The initial state on a page whose compose field holds ` hi ` and whose name field
holds ` Bob`; the socket is still connecting. -/
def composingAtLoad : State :=
  init { blankPage with chatInput := utf16 " hi ", displayNameInput := utf16 " Bob" }

/-- The same page after its channel opened. -/
def composingOpen : State := run composingAtLoad [.wsOpen]

/-- The same page after its channel opened and closed. -/
def composingClosed : State := run composingAtLoad [.wsOpen, .wsClose]

/-- The initial state on a page whose remote fields hold `10.0.0.5` and `4000`; the socket
is still connecting. -/
def connectingAtLoad : State :=
  init { blankPage with remoteIpInput := utf16 "10.0.0.5", remotePortInput := utf16 "4000" }

/-- An open channel, and the port text `9007199254740993`, which is `2 ^ 53 + 1`. -/
def bigPortPage : State :=
  { blankPage with
    readyState := .OPEN, remoteIpInput := utf16 "10.0.0.5",
    remotePortInput := utf16 "9007199254740993" }

/-- An open channel, and a port text of 310 digits: `1` followed by 309 zeros. -/
def hugePortPage : State :=
  { blankPage with
    readyState := .OPEN, remoteIpInput := utf16 "10.0.0.5",
    remotePortInput := utf16 "1" ++ List.replicate 309 (codeUnit 0x30) }

/-- The frame `{"type":"info","port":{"toString":0},"public_key":…}` carrying `longKey`. -/
def badPortFrame : JSON :=
  .obj (objOf [("type", .str (utf16 "info")),
    ("port", .obj (objOf [("toString", .num { isZero := true, text := utf16 "0" })])),
    ("public_key", .str longKey)])

/-- The key event of the Enter key, no modifier held. -/
def enterKey : KeyEvent := { key := utf16 "Enter", shiftKey := false }

/-! ## Outbound actions -/

/-- A list that is not `[]` is not empty. -/
theorem isEmpty_eq_false_of_ne {α : Type} (l : List α) (h : l ≠ []) : l.isEmpty = false := by
  cases l with
  | nil => exact absurd rfl h
  | cons a r => rfl

/-- Function `saveDisplayName` stores the trimmed name field: `t || ""` is `t`. -/
theorem saveDisplayName_displayName (s : State) :
    (saveDisplayName s).displayName = trim s.displayNameInput := by
  unfold saveDisplayName
  cases h : trim s.displayNameInput <;> simp

theorem utf16_Me_ne_nil : utf16 "Me" ≠ [] := by decide

theorem bubbleClass_me : bubbleClass (utf16 "me") = utf16 "msg me" := by decide

theorem bubbleClass_peer : bubbleClass (utf16 "peer") = utf16 "msg peer" := by decide

/-- The result of `appendMessage` on two strings, the label being truthy. -/
theorem appendMessage_strings (s : State) (text who name : JSString) (hname : name ≠ []) :
    appendMessage s (some (.str text)) who (some (.str name)) =
      some { s with messagesEl := s.messagesEl ++
        [{ className := bubbleClass who, label := some name, body := text }] } := by
  simp [appendMessage, labelFor, truthy, textContentOf, JSON.toText,
    isEmpty_eq_false_of_ne name hname]

/-- The three outcomes of `ws.send`, by ready state. -/
theorem ws_send_cases (s : State) (frame : Outbound) :
    (s.readyState = .CONNECTING ∧ ws.send s frame = none) ∨
    (s.readyState = .OPEN ∧ ws.send s frame = some { s with sent := s.sent ++ [frame] }) ∨
    ((s.readyState = .CLOSING ∨ s.readyState = .CLOSED) ∧ ws.send s frame = some s) := by
  unfold ws.send
  cases h : s.readyState <;> simp

/-- Function `saveDisplayName` writes `state.displayName` only. -/
theorem saveDisplayName_frame (s : State) :
    (saveDisplayName s).sent = s.sent ∧ (saveDisplayName s).alerts = s.alerts ∧
    (saveDisplayName s).messagesEl = s.messagesEl ∧
    (saveDisplayName s).connected = s.connected ∧
    (saveDisplayName s).remoteIpInput = s.remoteIpInput ∧
    (saveDisplayName s).remotePortInput = s.remotePortInput ∧
    (saveDisplayName s).displayNameInput = s.displayNameInput ∧
    (saveDisplayName s).readyState = s.readyState ∧
    (saveDisplayName s).chatInput = s.chatInput := by
  simp [saveDisplayName]

/-- The label `sendMessage` gives its bubble. -/
theorem sendMessage_label (s2 : State) (text name : JSString) :
    appendMessage s2 (some (.str text)) (utf16 "me")
        (some (orElse (some (.str name)) (.str (utf16 "Me")))) =
      some { s2 with messagesEl := s2.messagesEl ++
        [{ className := utf16 "msg me",
           label := some (if name = [] then utf16 "Me" else name), body := text }] } := by
  by_cases hn : name = []
  · subst hn
    have h := appendMessage_strings s2 text (utf16 "me") (utf16 "Me") utf16_Me_ne_nil
    simpa [orElse, truthy, bubbleClass_me] using h
  · have h := appendMessage_strings s2 text (utf16 "me") name hn
    simpa [orElse, truthy, isEmpty_eq_false_of_ne _ hn, hn, bubbleClass_me] using h

/-- The whole effect of `sendMessage` on a compose field that is not blank, the channel
being open. -/
theorem sendMessage_eq (s : State) (h : trim s.chatInput ≠ []) (ho : s.readyState = .OPEN) :
    sendMessage s =
      { s with
        displayName := trim s.displayNameInput
        sent := s.sent ++ [Outbound.send_message (trim s.chatInput) (trim s.displayNameInput)]
        messagesEl := s.messagesEl ++
          [{ className := utf16 "msg me",
             label := some (if trim s.displayNameInput = [] then utf16 "Me"
                            else trim s.displayNameInput),
             body := trim s.chatInput }]
        chatInput := [] } := by
  have hd := saveDisplayName_displayName s
  have he := isEmpty_eq_false_of_ne _ h
  have hr : (saveDisplayName s).readyState = .OPEN := ho
  simp only [sendMessage, he, ws.send, hr, sendMessage_label, hd]
  simp [saveDisplayName, ho]

/-- The effect of `sendMessage` while the socket is connecting: `ws.send` throws once the
name is committed. -/
theorem sendMessage_of_connecting (s : State) (h : trim s.chatInput ≠ [])
    (hc : s.readyState = .CONNECTING) : sendMessage s = saveDisplayName s := by
  have he := isEmpty_eq_false_of_ne _ h
  have hr : (saveDisplayName s).readyState = .CONNECTING := hc
  simp [sendMessage, he, ws.send, hr]

/-- The effect of `sendMessage` once the socket is closing or closed: the frame is
dropped and the bubble is appended. -/
theorem sendMessage_of_closed (s : State) (h : trim s.chatInput ≠ [])
    (hc : s.readyState = .CLOSING ∨ s.readyState = .CLOSED) :
    sendMessage s =
      { s with
        displayName := trim s.displayNameInput
        messagesEl := s.messagesEl ++
          [{ className := utf16 "msg me",
             label := some (if trim s.displayNameInput = [] then utf16 "Me"
                            else trim s.displayNameInput),
             body := trim s.chatInput }]
        chatInput := [] } := by
  have hd := saveDisplayName_displayName s
  have he := isEmpty_eq_false_of_ne _ h
  rcases hc with hc | hc
  · have hr : (saveDisplayName s).readyState = .CLOSING := hc
    simp only [sendMessage, he, ws.send, hr, sendMessage_label, hd]
    simp [saveDisplayName, hc]
  · have hr : (saveDisplayName s).readyState = .CLOSED := hc
    simp only [sendMessage, he, ws.send, hr, sendMessage_label, hd]
    simp [saveDisplayName, hc]

/-- Function `sendMessage` returns at once on a blank compose field. -/
theorem sendMessage_of_blank (s : State) (h : trim s.chatInput = []) : sendMessage s = s := by
  simp [sendMessage, h]

/-- C1 fails as stated: on a page just loaded, its socket still connecting, with ` hi ` in
the compose field, `sendMessage` sends nothing, appends no bubble and leaves the compose
field as it was; after the channel opened and closed, it appends the bubble and sends
nothing. -/
theorem sendMessage_not_open_counterexample :
    composingAtLoad.readyState = .CONNECTING ∧
    trim composingAtLoad.chatInput = utf16 "hi" ∧
    (sendMessage composingAtLoad).sent = [] ∧
    (sendMessage composingAtLoad).messagesEl = [] ∧
    (sendMessage composingAtLoad).chatInput = utf16 " hi " ∧
    composingClosed.readyState = .CLOSED ∧
    (sendMessage composingClosed).sent = [] ∧
    (sendMessage composingClosed).messagesEl =
      [{ className := utf16 "msg me", label := some (utf16 "Bob"), body := utf16 "hi" }] := by
  decide

/-- C1, as amended: whenever the compose field is non-empty after trimming, then, while the
channel is open, `sendMessage` sends exactly one frame `send_message`, carrying the trimmed
compose text and the trimmed name field, appends exactly one bubble of class `msg me` whose
body is that text and whose label is the committed display name, or `Me` when that name is
empty, and leaves the compose field empty; while the channel is still connecting
`ws.send` throws once the name is committed, so nothing is sent, no bubble is appended and
the compose field keeps its text; once the channel is closing or closed the bubble is
appended and the compose field emptied, and nothing is sent. -/
theorem sendMessage_sends_and_echoes (s : State) (h : trim s.chatInput ≠ []) :
    (s.readyState = .OPEN →
      (sendMessage s).sent =
        s.sent ++ [Outbound.send_message (trim s.chatInput) (trim s.displayNameInput)] ∧
      (sendMessage s).displayName = trim s.displayNameInput ∧
      (sendMessage s).messagesEl =
        s.messagesEl ++ [{ className := utf16 "msg me",
                           label := some (if (sendMessage s).displayName = [] then utf16 "Me"
                                          else (sendMessage s).displayName),
                           body := trim s.chatInput }] ∧
      (sendMessage s).chatInput = []) ∧
    (s.readyState = .CONNECTING →
      (sendMessage s).displayName = trim s.displayNameInput ∧
      (sendMessage s).sent = s.sent ∧
      (sendMessage s).messagesEl = s.messagesEl ∧
      (sendMessage s).chatInput = s.chatInput) ∧
    (s.readyState = .CLOSING ∨ s.readyState = .CLOSED →
      (sendMessage s).displayName = trim s.displayNameInput ∧
      (sendMessage s).sent = s.sent ∧
      (sendMessage s).messagesEl =
        s.messagesEl ++ [{ className := utf16 "msg me",
                           label := some (if (sendMessage s).displayName = [] then utf16 "Me"
                                          else (sendMessage s).displayName),
                           body := trim s.chatInput }] ∧
      (sendMessage s).chatInput = []) := by
  refine ⟨?_, ?_, ?_⟩
  · intro ho
    rw [sendMessage_eq s h ho]
    exact ⟨rfl, rfl, rfl, rfl⟩
  · intro hc
    rw [sendMessage_of_connecting s h hc]
    exact ⟨saveDisplayName_displayName s, rfl, rfl, rfl⟩
  · intro hc
    rw [sendMessage_of_closed s h hc]
    exact ⟨rfl, rfl, rfl, rfl⟩

/-- C1, as amended, at compose text ` hi ` and name field ` Bob`, the channel open. -/
theorem sendMessage_sends_and_echoes_witness :
    trim composingOpen.chatInput ≠ [] ∧ composingOpen.readyState = .OPEN ∧
    (sendMessage composingOpen).sent = [Outbound.send_message (utf16 "hi") (utf16 "Bob")] ∧
    (sendMessage composingOpen).messagesEl =
      [{ className := utf16 "msg me", label := some (utf16 "Bob"), body := utf16 "hi" }] ∧
    (sendMessage composingOpen).chatInput = [] :=
  ⟨by decide, by decide,
   ((sendMessage_sends_and_echoes composingOpen (by decide)).1 (by decide)).1.trans (by decide),
   ((sendMessage_sends_and_echoes composingOpen (by decide)).1 (by decide)).2.2.1.trans
     (by decide),
   ((sendMessage_sends_and_echoes composingOpen (by decide)).1 (by decide)).2.2.2⟩

/-- A string of white space only trims to the empty string. -/
theorem trim_eq_nil_of_all_whiteSpace (s : JSString) (h : s.all isWhiteSpace = true) :
    trim s = [] := by
  have h1 : s.dropWhile isWhiteSpace = [] :=
    List.dropWhile_eq_nil_iff.mpr (List.all_eq_true.mp h)
  simp [trim, h1, List.rdropWhile]

/-- C4: when the compose field is empty or holds white space only, `sendMessage` changes
nothing: the outbound log and the message list (and the rest of the state) are what they
were. -/
theorem sendMessage_blank_noop (s : State) (h : s.chatInput.all isWhiteSpace = true) :
    (sendMessage s).sent = s.sent ∧ (sendMessage s).messagesEl = s.messagesEl ∧
    sendMessage s = s := by
  have ht := trim_eq_nil_of_all_whiteSpace s.chatInput h
  simp [sendMessage, ht]

/-- C4 at a compose field holding a space, a tab and a line feed. -/
theorem sendMessage_blank_noop_witness :
    (utf16 " \t\n").all isWhiteSpace = true ∧
    (sendMessage { blankPage with chatInput := utf16 " \t\n", displayNameInput := utf16 "Bob" }).sent = [] ∧
    (sendMessage { blankPage with chatInput := utf16 " \t\n", displayNameInput := utf16 "Bob" }).messagesEl = [] :=
  ⟨by decide,
   (sendMessage_blank_noop
      { blankPage with chatInput := utf16 " \t\n", displayNameInput := utf16 "Bob" } (by decide)).1,
   (sendMessage_blank_noop
      { blankPage with chatInput := utf16 " \t\n", displayNameInput := utf16 "Bob" } (by decide)).2.1⟩

/-- Below `2 ^ 53` a number is its own nearest double. -/
theorem roundToDouble_small (n : Nat) (h : n < 2 ^ 53) : roundToDouble n = some n := by
  have he : excessBits n n = 0 := by
    cases n with
    | zero => rfl
    | succ m =>
      unfold excessBits
      rw [if_pos h]
  have hl : n < doubleLimit := by
    have : (2 : Nat) ^ 53 ≤ doubleLimit := by decide
    omega
  have hc : ¬ (1 < 2 * (n % 1) ∨ (2 * (n % 1) = 1 ∧ n / 1 % 2 = 1)) := by
    rw [Nat.mod_one]
    omega
  unfold roundToDouble
  simp only [he, pow2]
  rw [if_neg hc, Nat.div_one, Nat.mul_one, if_pos hl]

/-- A port text of decimal digits only that writes an integer below `2 ^ 53` parses to
that integer. -/
theorem parseInt_digits (z : JSString) (hne : z ≠ []) (hd : z.all isDigit = true)
    (hv : digitsValue z < 2 ^ 53) : parseInt z = some (.finite (digitsValue z)) := by
  have hall : ∀ c ∈ z, isDigit c = true := List.all_eq_true.mp hd
  obtain ⟨c, r, rfl⟩ := List.exists_cons_of_ne_nil hne
  have hc : isDigit c = true := hall c (List.mem_cons_self _ _)
  have hcv : 0x30 ≤ c.val ∧ c.val ≤ 0x39 := by simpa [isDigit] using hc
  have hw : isWhiteSpace c = false := by
    simp only [isWhiteSpace, Bool.or_eq_false_iff, Bool.and_eq_false_iff, beq_eq_false_iff_ne,
      decide_eq_false_iff_not]
    omega
  have hm : c ≠ codeUnit 0x2D := by
    intro h
    rw [h] at hcv
    revert hcv
    decide
  have hp : c ≠ codeUnit 0x2B := by
    intro h
    rw [h] at hcv
    revert hcv
    decide
  have htw : (c :: r).takeWhile isDigit = c :: r := List.takeWhile_eq_self_iff.mpr hall
  have hdw : (c :: r).dropWhile isWhiteSpace = c :: r := by simp [List.dropWhile, hw]
  unfold parseInt
  simp only [hdw, List.head?_cons, List.tail_cons]
  simp [hm, hp, htw, roundToDouble_small _ hv]

/-- The outcomes of `btnConnect.onclick`. -/
theorem btnConnect_onclick_cases (s : State) :
    (trim s.remoteIpInput ≠ [] ∧ ∃ port, parseInt (trim s.remotePortInput) = some port ∧
      (btnConnect.onclick s).alerts = s.alerts ∧
      (s.readyState = .OPEN →
        (btnConnect.onclick s).sent =
          s.sent ++ [Outbound.connect_peer (trim s.remoteIpInput) (stringifyNumber port)]) ∧
      (s.readyState ≠ .OPEN → (btnConnect.onclick s).sent = s.sent)) ∨
    ((trim s.remoteIpInput = [] ∨ parseInt (trim s.remotePortInput) = none) ∧
      (btnConnect.onclick s).sent = s.sent ∧
      (btnConnect.onclick s).alerts = s.alerts ++ [alertText]) := by
  unfold btnConnect.onclick
  simp only [(saveDisplayName_frame s).2.2.2.2.1, (saveDisplayName_frame s).2.2.2.2.2.1]
  cases hip : trim s.remoteIpInput with
  | nil => right; simp [saveDisplayName_frame]
  | cons c r =>
    cases hp : parseInt (trim s.remotePortInput) with
    | none => right; simp [saveDisplayName_frame]
    | some port =>
      left
      have hr : (saveDisplayName s).readyState = s.readyState := rfl
      cases hrs : s.readyState <;> simp [ws.send, hr, hrs, saveDisplayName_frame]

/-- C2 fails as stated: on a page just loaded, its socket still connecting, with IP
`10.0.0.5` and port `4000`, both valid, `btnConnect.onclick` sends nothing (and raises no
alert); on an open channel the port text `9007199254740993` is sent as the number
`9007199254740992`, and a port text of 310 digits is sent as `null`. -/
theorem btnConnect_onclick_counterexample :
    connectingAtLoad.readyState = .CONNECTING ∧
    trim connectingAtLoad.remoteIpInput = utf16 "10.0.0.5" ∧
    parseInt (trim connectingAtLoad.remotePortInput) = some (.finite 4000) ∧
    (btnConnect.onclick connectingAtLoad).sent = [] ∧
    (btnConnect.onclick connectingAtLoad).alerts = [] ∧
    (btnConnect.onclick bigPortPage).sent =
      [Outbound.connect_peer (utf16 "10.0.0.5") (some 9007199254740992)] ∧
    (btnConnect.onclick hugePortPage).sent =
      [Outbound.connect_peer (utf16 "10.0.0.5") none] := by
  decide

/-- C2, as amended: while the channel is open, `btnConnect.onclick` sends a `connect_peer`
frame exactly when the IP field is non-empty after trimming and the trimmed port field
parses, base 10, to a number; it then sends that one frame, with the trimmed IP and the
number `parseInt` returns as `JSON.stringify` writes it (the integer the digits write when
that is below `2 ^ 53`), and raises no alert.  In every channel state an IP field that is
empty after trimming or a port that does not parse raises the validation alert and sends
nothing.  While the channel is not open nothing is sent.  IP `""` with any port aborts,
port `"abc"` aborts with any IP, and, the channel being open, IP `"10.0.0.5"` with port
`"4000"` sends `connect_peer` with ip `"10.0.0.5"` and port `4000`. -/
theorem btnConnect_emits_iff_valid (s : State) :
    (s.readyState = .OPEN →
      ((∃ m, (btnConnect.onclick s).sent = s.sent ++ [m]) ↔
        (trim s.remoteIpInput ≠ [] ∧ parseInt (trim s.remotePortInput) ≠ none))) ∧
    (s.readyState = .OPEN →
      ∀ port, trim s.remoteIpInput ≠ [] → parseInt (trim s.remotePortInput) = some port →
        (btnConnect.onclick s).sent =
          s.sent ++ [Outbound.connect_peer (trim s.remoteIpInput) (stringifyNumber port)] ∧
        (btnConnect.onclick s).alerts = s.alerts) ∧
    (∀ z : JSString, z ≠ [] → z.all isDigit = true → digitsValue z < 2 ^ 53 →
      (parseInt z).map stringifyNumber = some (some (digitsValue z : Int))) ∧
    ((trim s.remoteIpInput = [] ∨ parseInt (trim s.remotePortInput) = none) →
      (btnConnect.onclick s).sent = s.sent ∧
      (btnConnect.onclick s).alerts = s.alerts ++ [alertText]) ∧
    (s.readyState ≠ .OPEN → (btnConnect.onclick s).sent = s.sent) ∧
    (∀ port,
      (btnConnect.onclick { s with remoteIpInput := utf16 "", remotePortInput := port }).sent
        = s.sent ∧
      (btnConnect.onclick { s with remoteIpInput := utf16 "", remotePortInput := port }).alerts
        = s.alerts ++ [alertText]) ∧
    (∀ ip,
      (btnConnect.onclick { s with remoteIpInput := ip, remotePortInput := utf16 "abc" }).sent
        = s.sent ∧
      (btnConnect.onclick { s with remoteIpInput := ip, remotePortInput := utf16 "abc" }).alerts
        = s.alerts ++ [alertText]) ∧
    (s.readyState = .OPEN →
      (btnConnect.onclick
          { s with remoteIpInput := utf16 "10.0.0.5", remotePortInput := utf16 "4000" }).sent
        = s.sent ++ [Outbound.connect_peer (utf16 "10.0.0.5") (some 4000)]) := by
  refine ⟨?_, ?_, ?_, ?_, ?_, ?_, ?_, ?_⟩
  · intro ho
    rcases btnConnect_onclick_cases s with ⟨hip, port, hp, _, hs, _⟩ | ⟨hbad, hs, _⟩
    · simp [hip, hp, hs ho]
    · rw [hs]
      constructor
      · rintro ⟨m, hm⟩
        simp at hm
      · rintro ⟨h1, h2⟩
        rcases hbad with h | h
        · exact absurd h h1
        · exact absurd h h2
  · intro ho port hip hp
    rcases btnConnect_onclick_cases s with ⟨_, port2, hp2, ha, hs, _⟩ | ⟨hbad, _, _⟩
    · rw [hp] at hp2
      cases hp2
      exact ⟨hs ho, ha⟩
    · rcases hbad with h | h
      · exact absurd h hip
      · rw [hp] at h; cases h
  · intro z hne hd hv
    rw [parseInt_digits z hne hd hv]
    rfl
  · intro hbad
    rcases btnConnect_onclick_cases s with ⟨hip, port2, hp2, _, _, _⟩ | ⟨_, hs, ha⟩
    · rcases hbad with h | h
      · exact absurd h hip
      · rw [hp2] at h; cases h
    · exact ⟨hs, ha⟩
  · intro hno
    rcases btnConnect_onclick_cases s with ⟨_, _, _, _, _, hs⟩ | ⟨_, hs, _⟩
    · exact hs hno
    · exact hs
  · intro port
    rcases btnConnect_onclick_cases { s with remoteIpInput := utf16 "", remotePortInput := port }
      with ⟨hip, _⟩ | ⟨_, hs, ha⟩
    · have hip2 : trim (utf16 "") ≠ [] := hip
      exact absurd (by decide) hip2
    · exact ⟨hs, ha⟩
  · intro ip
    rcases btnConnect_onclick_cases { s with remoteIpInput := ip, remotePortInput := utf16 "abc" }
      with ⟨_, port2, hp2, _, _, _⟩ | ⟨_, hs, ha⟩
    · have hp3 : parseInt (trim (utf16 "abc")) = some port2 := hp2
      have hn : parseInt (trim (utf16 "abc")) = none := by decide
      rw [hn] at hp3
      cases hp3
    · exact ⟨hs, ha⟩
  · intro ho
    rcases btnConnect_onclick_cases
      { s with remoteIpInput := utf16 "10.0.0.5", remotePortInput := utf16 "4000" }
      with ⟨_, port2, hp2, _, hs, _⟩ | ⟨hbad, _, _⟩
    · have h4 : port2 = .finite 4000 := by
        have : parseInt (trim (utf16 "4000")) = some (.finite 4000) := by decide
        have hp3 : parseInt (trim (utf16 "4000")) = some port2 := hp2
        rw [this] at hp3
        exact (Option.some.inj hp3).symm
      have hs2 := hs ho
      rw [hs2, h4]
      have : trim (utf16 "10.0.0.5") = utf16 "10.0.0.5" := by decide
      simp [this, stringifyNumber]
    · rcases hbad with h | h
      · have h2 : trim (utf16 "10.0.0.5") = [] := h
        exact absurd h2 (by decide)
      · have h2 : parseInt (trim (utf16 "4000")) = none := h
        exact absurd h2 (by decide)

/-- C2, as amended, on an open channel with IP `10.0.0.5` and port `4000`. -/
theorem btnConnect_emits_iff_valid_witness :
    (run connectingAtLoad [.wsOpen]).readyState = .OPEN ∧
    (btnConnect.onclick (run connectingAtLoad [.wsOpen])).sent =
      [Outbound.connect_peer (utf16 "10.0.0.5") (some 4000)] ∧
    (btnConnect.onclick (run connectingAtLoad [.wsOpen])).alerts = [] :=
  ⟨by decide,
   ((btnConnect_emits_iff_valid (run connectingAtLoad [.wsOpen])).2.1 (by decide)
      (.finite 4000) (by decide) (by decide)).1.trans (by decide),
   ((btnConnect_emits_iff_valid (run connectingAtLoad [.wsOpen])).2.1 (by decide)
      (.finite 4000) (by decide) (by decide)).2.trans (by decide)⟩

/-! ## Inbound frames -/

/-- What `appendMessage` does when it returns: one bubble more at the end of the list,
nothing else touched. -/
theorem appendMessage_eq_some (s s1 : State) (text : Option JSON) (who : JSString)
    (name : Option JSON) (h : appendMessage s text who name = some s1) :
    ∃ b : Bubble, s1 = { s with messagesEl := s.messagesEl ++ [b] } := by
  unfold appendMessage at h
  split at h
  · exact ⟨_, (Option.some.inj h).symm⟩
  · cases h

/-- A value with a property is not `null`: the handler gets past its first read. -/
theorem onmessage_of_prop (s : State) (data : JSON) (k : JSString) (v : JSON)
    (h : data.prop k = some v) : ws.onmessage s (some data) = dispatch s data := by
  cases data with
  | null => simp [JSON.prop] at h
  | _ => rfl

theorem strictEq_self (l : JSString) : strictEq (some (.str l)) l = true := by
  simp [strictEq]

/-- C3, as amended: for every inbound `peer_message` event whose `from_name` and
`message` are each a string or absent, `ws.onmessage` appends exactly one bubble of class
`msg peer`, labelled with `from_name` when that is a non-empty string and with `Peer`
when it is absent or the empty string, whose body is `message`, or the empty string when
`message` is absent; it sends nothing. -/
theorem onmessage_peer_message (s : State) (data : JSON) (fromName message : Option JSString)
    (htype : data.prop (utf16 "type") = some (.str (utf16 "peer_message")))
    (hname : data.prop (utf16 "from_name") = fromName.map JSON.str)
    (hmsg : data.prop (utf16 "message") = message.map JSON.str) :
    (ws.onmessage s (some data)).messagesEl =
      s.messagesEl ++ [{ className := utf16 "msg peer",
                         label := some (if fromName = none ∨ fromName = some []
                                        then utf16 "Peer" else fromName.getD []),
                         body := message.getD [] }] ∧
    (ws.onmessage s (some data)).sent = s.sent := by
  have hPeer : utf16 "Peer" ≠ [] := by decide
  rw [onmessage_of_prop s data _ _ htype]
  unfold dispatch
  rw [htype, strictEq_self, hname, hmsg]
  simp only [if_true]
  have hbody : orElse (message.map JSON.str) (.str (utf16 "")) = .str (message.getD []) := by
    cases message with
    | none => rfl
    | some m =>
      cases m with
      | nil => rfl
      | cons c r => simp [orElse, truthy]
  rw [hbody]
  cases fromName with
  | none =>
    simp [orElse, appendMessage_strings s _ _ _ hPeer, bubbleClass_peer]
  | some n =>
    by_cases hn : n = []
    · subst hn
      simp [orElse, truthy, appendMessage_strings s _ _ _ hPeer, bubbleClass_peer]
    · simp [orElse, truthy, isEmpty_eq_false_of_ne n hn, appendMessage_strings s _ _ _ hn, hn,
        bubbleClass_peer]

/-- C3, as amended, at the frame `{"type":"peer_message","from_name":"Alice","message":"hi"}`. -/
theorem onmessage_peer_message_witness :
    (ws.onmessage blankPage (some aliceFrame)).messagesEl =
      [{ className := utf16 "msg peer", label := some (utf16 "Alice"), body := utf16 "hi" }] ∧
    (ws.onmessage blankPage (some aliceFrame)).sent = [] :=
  ⟨(onmessage_peer_message blankPage aliceFrame (some (utf16 "Alice")) (some (utf16 "hi"))
      rfl rfl rfl).1.trans (by decide),
   (onmessage_peer_message blankPage aliceFrame (some (utf16 "Alice")) (some (utf16 "hi"))
      rfl rfl rfl).2⟩

/-- C3 fails as stated: the frame `{"type":"peer_message","from_name":"","message":"hi"}`
has a `from_name`, the empty string, and its bubble is labelled `Peer`, not `from_name`. -/
theorem onmessage_peer_label_counterexample :
    emptyNameFrame.prop (utf16 "type") = some (.str (utf16 "peer_message")) ∧
    emptyNameFrame.prop (utf16 "from_name") = some (.str (utf16 "")) ∧
    (ws.onmessage blankPage (some emptyNameFrame)).messagesEl =
      [{ className := utf16 "msg peer", label := some (utf16 "Peer"), body := utf16 "hi" }] ∧
    ¬ (∃ b, (ws.onmessage blankPage (some emptyNameFrame)).messagesEl = [b] ∧
        b.label = some (utf16 "")) := by
  have hm : (ws.onmessage blankPage (some emptyNameFrame)).messagesEl =
      [{ className := utf16 "msg peer", label := some (utf16 "Peer"), body := utf16 "hi" }] := by
    decide
  refine ⟨rfl, rfl, hm, ?_⟩
  rintro ⟨b, hb, hl⟩
  rw [hm] at hb
  cases hb
  exact absurd hl (by decide)

/-- The port write touches `myPortEl` only. -/
theorem writePort_frame (s s1 : State) (data : JSON) (h : writePort s data = some s1) :
    ∃ a, s1 = { s with myPortEl := a } := by
  unfold writePort at h
  split at h
  · exact ⟨s.myPortEl, (Option.some.inj h).symm⟩
  · split at h
    · split at h
      · exact ⟨_, (Option.some.inj h).symm⟩
      · cases h
    · exact ⟨s.myPortEl, (Option.some.inj h).symm⟩

/-- The port write does not throw when the port converts to text. -/
theorem writePort_isSome (s : State) (data : JSON)
    (hport : (data.prop (utf16 "port")).all (fun v => v.toText.isSome) = true) :
    ∃ s1, writePort s data = some s1 := by
  unfold writePort
  cases hp : data.prop (utf16 "port") with
  | none => exact ⟨s, rfl⟩
  | some v =>
    rw [hp] at hport
    cases ht : v.toText with
    | none => simp [ht] at hport
    | some txt =>
      by_cases hv : truthy (some v) = true
      · exact ⟨{ s with myPortEl := txt }, by simp [hv, ht]⟩
      · exact ⟨s, by simp [hv]⟩

/-- The key write touches `myPubKeyEl` only. -/
theorem writeKey_frame (s : State) (data : JSON) :
    ∃ b, writeKey s data = { s with myPubKeyEl := b } := by
  unfold writeKey
  split
  · exact ⟨s.myPubKeyEl, rfl⟩
  · split
    · split
      · exact ⟨_, rfl⟩
      · exact ⟨s.myPubKeyEl, rfl⟩
    · exact ⟨s.myPubKeyEl, rfl⟩

/-- The key write of the `info` branch: when the port write does not throw and the key
is a non-empty string, the key display gets its first 30 code units and the ellipsis. -/
theorem onInfo_myPubKeyEl (s : State) (data : JSON) (key : JSString)
    (hport : (data.prop (utf16 "port")).all (fun v => v.toText.isSome) = true)
    (hkey : data.prop (utf16 "public_key") = some (.str key)) (hne : key ≠ []) :
    (onInfo s data).myPubKeyEl = key.take 30 ++ utf16 "..." := by
  have hk : truthy (some (.str key)) = true := by
    simp [truthy, isEmpty_eq_false_of_ne key hne]
  obtain ⟨s1, h1⟩ := writePort_isSome s data hport
  unfold onInfo
  rw [h1]
  simp [writeKey, hkey, hk, sliceEllipsis, slice0]

/-- A port that is a number or absent converts to text. -/
theorem port_converts (data : JSON) (port : Option JSNumber)
    (hport : data.prop (utf16 "port") = port.map JSON.num) :
    (data.prop (utf16 "port")).all (fun v => v.toText.isSome) = true := by
  rw [hport]
  cases port <;> simp [JSON.toText]

/-- The `info` branch is reached for an event whose `type` is `info`. -/
theorem onmessage_info (s : State) (data : JSON)
    (htype : data.prop (utf16 "type") = some (.str (utf16 "info"))) :
    ws.onmessage s (some data) = onInfo s data := by
  have h1 : strictEq (some (.str (utf16 "info"))) (utf16 "peer_message") = false := by decide
  have h2 : strictEq (some (.str (utf16 "info"))) (utf16 "status") = false := by decide
  rw [onmessage_of_prop s data _ _ htype]
  unfold dispatch
  rw [htype, h1, h2, strictEq_self]
  simp

/-- C5 fails as stated: the frame `{"type":"info","port":{"toString":0},"public_key":…}`
carries a key of 40 code units, and `ws.onmessage` leaves `myPubKeyEl` as it was: the port
write of line 51 throws before line 52 runs. -/
theorem onmessage_info_port_counterexample :
    badPortFrame.prop (utf16 "type") = some (.str (utf16 "info")) ∧
    badPortFrame.prop (utf16 "public_key") = some (.str longKey) ∧
    30 ≤ longKey.length ∧
    (ws.onmessage blankPage (some badPortFrame)).myPubKeyEl = [] ∧
    (ws.onmessage blankPage (some badPortFrame)).myPubKeyEl.length ≠ 33 := by
  refine ⟨rfl, rfl, by decide, by decide, by decide⟩

/-- C5, as amended: for every inbound `info` event carrying a public key string of at
least 30 code units, whose port, when present, converts to text (as every number, string,
boolean and `null` does, and an object with a `toString` member of its own does not),
after `ws.onmessage` the value of `myPubKeyEl` is the first 30 code units of the key
followed by `...`, 33 code units in all. -/
theorem onmessage_info_public_key (s : State) (data : JSON) (key : JSString)
    (htype : data.prop (utf16 "type") = some (.str (utf16 "info")))
    (hport : (data.prop (utf16 "port")).all (fun v => v.toText.isSome) = true)
    (hkey : data.prop (utf16 "public_key") = some (.str key))
    (hlen : 30 ≤ key.length) :
    (ws.onmessage s (some data)).myPubKeyEl = key.take 30 ++ utf16 "..." ∧
    (ws.onmessage s (some data)).myPubKeyEl.length = 33 := by
  have hne : key ≠ [] := by
    intro h
    rw [h] at hlen
    simp at hlen
  have hd : (ws.onmessage s (some data)).myPubKeyEl = key.take 30 ++ utf16 "..." := by
    rw [onmessage_info s data htype]
    exact onInfo_myPubKeyEl s data key hport hkey hne
  refine ⟨hd, ?_⟩
  rw [hd, List.length_append, List.length_take, Nat.min_eq_left hlen]
  decide

/-- C5, as amended, at a frame carrying port 5000 and a key of 40 code units. -/
theorem onmessage_info_public_key_witness :
    30 ≤ longKey.length ∧
    (ws.onmessage blankPage (some longKeyFrame)).myPubKeyEl =
      utf16 "MIIBIjANBgkqhkiG9w0BAQEFAAOCAQ..." :=
  ⟨by decide,
   (onmessage_info_public_key blankPage longKeyFrame longKey rfl (by decide) rfl
      (by decide)).1.trans (by decide)⟩

/-- C6 fails as stated: the key `abc` is displayed as `abc...`, which contains the whole
key, and a key of 33 code units that ends in `...` after 30 code units is displayed
exactly as it is. -/
theorem onmessage_info_full_key_counterexample :
    shortKeyFrame.prop (utf16 "type") = some (.str (utf16 "info")) ∧
    shortKeyFrame.prop (utf16 "public_key") = some (.str (utf16 "abc")) ∧
    (ws.onmessage blankPage (some shortKeyFrame)).myPubKeyEl = utf16 "abc..." ∧
    utf16 "abc" <:+: (ws.onmessage blankPage (some shortKeyFrame)).myPubKeyEl ∧
    dottedKeyFrame.prop (utf16 "public_key") = some (.str dottedKey) ∧
    (ws.onmessage blankPage (some dottedKeyFrame)).myPubKeyEl = dottedKey := by
  have hm : (ws.onmessage blankPage (some shortKeyFrame)).myPubKeyEl = utf16 "abc..." := by
    decide
  refine ⟨rfl, rfl, hm, ?_, rfl, by decide⟩
  rw [hm]
  exact ⟨[], utf16 "...", by decide⟩

/-- C6, as amended: for every inbound `info` event carrying a non-empty public key string,
whose port, when present, converts to text (as every number, string, boolean and `null`
does, and an object with a `toString` member of its own does not), after `ws.onmessage`
the value of `myPubKeyEl` is the first 30 code units of the key followed by `...`; when
the key is longer than 33 code units that value does not contain the whole key. -/
theorem onmessage_info_key_display (s : State) (data : JSON) (key : JSString)
    (htype : data.prop (utf16 "type") = some (.str (utf16 "info")))
    (hport : (data.prop (utf16 "port")).all (fun v => v.toText.isSome) = true)
    (hkey : data.prop (utf16 "public_key") = some (.str key))
    (hne : key ≠ []) :
    (ws.onmessage s (some data)).myPubKeyEl = key.take 30 ++ utf16 "..." ∧
    (33 < key.length → ¬ key <:+: (ws.onmessage s (some data)).myPubKeyEl) := by
  have hd : (ws.onmessage s (some data)).myPubKeyEl = key.take 30 ++ utf16 "..." := by
    rw [onmessage_info s data htype]
    exact onInfo_myPubKeyEl s data key hport hkey hne
  refine ⟨hd, ?_⟩
  intro hlen hin
  have hle := hin.length_le
  rw [hd, List.length_append, List.length_take] at hle
  have h3 : (utf16 "...").length = 3 := by decide
  rw [h3] at hle
  omega

/-- C6, as amended, at a frame carrying port 5000 and a key of 40 code units. -/
theorem onmessage_info_key_display_witness :
    longKey ≠ [] ∧ 33 < longKey.length ∧
    (ws.onmessage blankPage (some longKeyFrame)).myPubKeyEl =
      utf16 "MIIBIjANBgkqhkiG9w0BAQEFAAOCAQ..." ∧
    ¬ longKey <:+: (ws.onmessage blankPage (some longKeyFrame)).myPubKeyEl :=
  ⟨by decide, by decide,
   (onmessage_info_key_display blankPage longKeyFrame longKey rfl (by decide) rfl
      (by decide)).1.trans (by decide),
   (onmessage_info_key_display blankPage longKeyFrame longKey rfl (by decide) rfl
      (by decide)).2 (by decide)⟩

/-! ## Effect of one event -/

/-- A handler that keeps `state` and the two lists has the effect `StepEffect`. -/
theorem stepEffect_of_lists_eq (s s1 : State) (hc : s1.connected = s.connected)
    (hd : s1.displayName = s.displayName) (hm : s1.messagesEl = s.messagesEl)
    (hs : s1.sent = s.sent) : StepEffect s s1 :=
  ⟨hc, Or.inl hd, ⟨[], by simp, by simp [hm]⟩, ⟨[], by simp, by simp [hs]⟩⟩

/-- The `info` branch touches `myPortEl` and `myPubKeyEl` only. -/
theorem onInfo_frame (s : State) (data : JSON) :
    ∃ a b, onInfo s data = { s with myPortEl := a, myPubKeyEl := b } := by
  unfold onInfo
  cases h : writePort s data with
  | none => exact ⟨s.myPortEl, s.myPubKeyEl, rfl⟩
  | some s1 =>
    obtain ⟨a, ha⟩ := writePort_frame s s1 data h
    obtain ⟨b, hb⟩ := writeKey_frame s1 data
    subst ha
    exact ⟨a, b, hb⟩

/-- The branches of `ws.onmessage` keep `state` and the outbound log, and add at most one
bubble. -/
theorem dispatch_effect (s : State) (data : JSON) :
    (dispatch s data).connected = s.connected ∧
    (dispatch s data).displayName = s.displayName ∧
    (dispatch s data).sent = s.sent ∧
    ∃ bs : List Bubble, bs.length ≤ 1 ∧ (dispatch s data).messagesEl = s.messagesEl ++ bs := by
  unfold dispatch
  split
  · simp only []
    split
    · rename_i s1 h
      obtain ⟨b, hb⟩ := appendMessage_eq_some _ _ _ _ _ h
      subst hb
      exact ⟨rfl, rfl, rfl, [b], by simp, rfl⟩
    · exact ⟨rfl, rfl, rfl, [], by simp, by simp⟩
  · split
    · split
      · exact ⟨rfl, rfl, rfl, [], by simp, by simp⟩
      · exact ⟨rfl, rfl, rfl, [], by simp, by simp⟩
    · split
      · obtain ⟨a, b, hab⟩ := onInfo_frame s data
        rw [hab]
        exact ⟨rfl, rfl, rfl, [], by simp, by simp⟩
      · exact ⟨rfl, rfl, rfl, [], by simp, by simp⟩

/-- Handler `ws.onmessage` keeps `state` and the outbound log, and adds at most one
bubble. -/
theorem onmessage_effect (s : State) (parsed : Option JSON) :
    (ws.onmessage s parsed).connected = s.connected ∧
    (ws.onmessage s parsed).displayName = s.displayName ∧
    (ws.onmessage s parsed).sent = s.sent ∧
    ∃ bs : List Bubble, bs.length ≤ 1 ∧ (ws.onmessage s parsed).messagesEl = s.messagesEl ++ bs := by
  cases parsed with
  | none => exact ⟨rfl, rfl, rfl, [], by simp, by simp [ws.onmessage]⟩
  | some data =>
    cases data with
    | null => exact ⟨rfl, rfl, rfl, [], by simp, by simp [ws.onmessage]⟩
    | _ => exact dispatch_effect s _

theorem saveDisplayName_effect (s : State) : StepEffect s (saveDisplayName s) :=
  ⟨rfl, Or.inr (saveDisplayName_displayName s), ⟨[], by simp, by simp [saveDisplayName]⟩,
    ⟨[], by simp, by simp [saveDisplayName]⟩⟩

theorem sendMessage_effect (s : State) : StepEffect s (sendMessage s) := by
  by_cases h : trim s.chatInput = []
  · rw [sendMessage_of_blank s h]
    exact stepEffect_of_lists_eq s s rfl rfl rfl rfl
  · cases hr : s.readyState with
    | CONNECTING =>
      rw [sendMessage_of_connecting s h hr]
      exact saveDisplayName_effect s
    | OPEN =>
      rw [sendMessage_eq s h hr]
      exact ⟨rfl, Or.inr rfl, ⟨[_], by simp, rfl⟩, ⟨[_], by simp, rfl⟩⟩
    | CLOSING =>
      rw [sendMessage_of_closed s h (Or.inl hr)]
      exact ⟨rfl, Or.inr rfl, ⟨[_], by simp, rfl⟩, ⟨[], by simp, by simp⟩⟩
    | CLOSED =>
      rw [sendMessage_of_closed s h (Or.inr hr)]
      exact ⟨rfl, Or.inr rfl, ⟨[_], by simp, rfl⟩, ⟨[], by simp, by simp⟩⟩

/-- Function `sendMessage` commits the display name whenever the compose field is not
blank, whatever the channel does with the frame. -/
theorem sendMessage_displayName (s : State) (h : trim s.chatInput ≠ []) :
    (sendMessage s).displayName = trim s.displayNameInput := by
  cases hr : s.readyState with
  | CONNECTING =>
    rw [sendMessage_of_connecting s h hr]
    exact saveDisplayName_displayName s
  | OPEN => rw [sendMessage_eq s h hr]
  | CLOSING => rw [sendMessage_of_closed s h (Or.inl hr)]
  | CLOSED => rw [sendMessage_of_closed s h (Or.inr hr)]

/-- The state `btnConnect.onclick` ends in: the committed state with at most one entry
more in the outbound log or in the alerts. -/
theorem btnConnect_onclick_shape (s : State) :
    ∃ ms : List Outbound, ∃ al : List JSString, ms.length ≤ 1 ∧
      btnConnect.onclick s =
        { saveDisplayName s with
          sent := (saveDisplayName s).sent ++ ms, alerts := (saveDisplayName s).alerts ++ al } := by
  simp only [btnConnect.onclick]
  split
  · rename_i port _ _
    rcases ws_send_cases (saveDisplayName s)
        (Outbound.connect_peer (trim (saveDisplayName s).remoteIpInput) (stringifyNumber port))
      with ⟨_, h⟩ | ⟨_, h⟩ | ⟨_, h⟩
    · rw [h]
      exact ⟨[], [], by simp, by simp⟩
    · rw [h]
      exact ⟨[Outbound.connect_peer (trim (saveDisplayName s).remoteIpInput)
        (stringifyNumber port)], [], by simp, by simp⟩
    · rw [h]
      exact ⟨[], [], by simp, by simp⟩
  · exact ⟨[], [alertText], by simp, by simp⟩

theorem btnConnect_onclick_effect (s : State) : StepEffect s (btnConnect.onclick s) := by
  obtain ⟨ms, al, hms, h⟩ := btnConnect_onclick_shape s
  rw [h]
  exact ⟨rfl, Or.inr (saveDisplayName_displayName s), ⟨[], by simp, by simp [saveDisplayName]⟩,
    ⟨ms, hms, by simp [saveDisplayName]⟩⟩

theorem btnConnect_onclick_displayName (s : State) :
    (btnConnect.onclick s).displayName = trim s.displayNameInput := by
  obtain ⟨ms, al, hms, h⟩ := btnConnect_onclick_shape s
  rw [h]
  exact saveDisplayName_displayName s

/-- Every event has the effect described by `StepEffect`. -/
theorem step_effect (s : State) (e : Event) : StepEffect s (step s e) := by
  cases e with
  | wsOpen => exact stepEffect_of_lists_eq s _ rfl rfl rfl rfl
  | wsMessage parsed =>
    obtain ⟨hc, hd, hs, bs, hb1, hb2⟩ := onmessage_effect s parsed
    exact ⟨hc, Or.inl hd, ⟨bs, hb1, hb2⟩, ⟨[], by simp, by simpa using hs⟩⟩
  | wsClosing => exact stepEffect_of_lists_eq s _ rfl rfl rfl rfl
  | wsClose => exact stepEffect_of_lists_eq s _ rfl rfl rfl rfl
  | clickSend => exact sendMessage_effect s
  | clickConnect => exact btnConnect_onclick_effect s
  | blur f =>
    cases f with
    | chatInput => exact stepEffect_of_lists_eq s _ rfl rfl rfl rfl
    | displayName => exact saveDisplayName_effect s
    | remoteIp => exact stepEffect_of_lists_eq s _ rfl rfl rfl rfl
    | remotePort => exact saveDisplayName_effect s
  | keydown f k =>
    cases f with
    | chatInput =>
      show StepEffect s (chatInput_keydown s k)
      unfold chatInput_keydown
      split
      · exact sendMessage_effect s
      · exact stepEffect_of_lists_eq s _ rfl rfl rfl rfl
    | displayName =>
      show StepEffect s (displayNameInput_keydown s k)
      unfold displayNameInput_keydown
      split
      · exact saveDisplayName_effect s
      · exact stepEffect_of_lists_eq s _ rfl rfl rfl rfl
    | remoteIp => exact stepEffect_of_lists_eq s _ rfl rfl rfl rfl
    | remotePort => exact stepEffect_of_lists_eq s _ rfl rfl rfl rfl
  | edit f v =>
    cases f <;> exact stepEffect_of_lists_eq s _ rfl rfl rfl rfl

theorem run_nil (s : State) : run s [] = s := rfl

theorem run_cons (s : State) (e : Event) (es : List Event) :
    run s (e :: es) = run (step s e) es := rfl

theorem run_append (s : State) (es1 es2 : List Event) :
    run s (es1 ++ es2) = run (run s es1) es2 := by
  simp [run, List.foldl_append]

/-- White space is gone from both ends of a trimmed string. -/
theorem isTrimmed_trim (s : JSString) : isTrimmed (trim s) = true := by
  unfold isTrimmed
  by_cases hne : trim s = []
  · simp [hne]
  · have hlast : isWhiteSpace ((trim s).getLast hne) = false := by
      have h := List.rdropWhile_last_not (p := isWhiteSpace) (l := s.dropWhile isWhiteSpace) hne
      simpa using h
    have hpre : trim s <+: s.dropWhile isWhiteSpace := List.rdropWhile_prefix isWhiteSpace _
    have hhead : isWhiteSpace ((trim s).head hne) = false := by
      rw [hpre.head hne]
      exact List.head_dropWhile_not _ _ _
    rw [List.head?_eq_head hne, List.getLast?_eq_getLast _ hne]
    simp [hhead, hlast]

theorem isTrimmed_nil : isTrimmed [] = true := rfl

/-! ## Invariants of a run -/

/-- No run changes `state.connected`. -/
theorem run_connected (s : State) (events : List Event) :
    (run s events).connected = s.connected := by
  induction events generalizing s with
  | nil => rfl
  | cons e es ih => rw [run_cons, ih, (step_effect s e).1]

/-- A trimmed stored display name stays trimmed along any run. -/
theorem run_displayName_isTrimmed (s : State) (events : List Event)
    (h : isTrimmed s.displayName = true) : isTrimmed (run s events).displayName = true := by
  induction events generalizing s with
  | nil => exact h
  | cons e es ih =>
    rw [run_cons]
    apply ih
    rcases (step_effect s e).2.1 with hd | hd
    · rw [hd]; exact h
    · rw [hd]; exact isTrimmed_trim _

/-- After a run the message list is the initial one followed by the bubbles of each
event, in the order of the events. -/
theorem run_messagesEl (s : State) (events : List Event) :
    (run s events).messagesEl = s.messagesEl ++ bubblesOfRun s events := by
  induction events generalizing s with
  | nil => simp [run_nil, bubblesOfRun]
  | cons e es ih =>
    obtain ⟨bs, _, hb⟩ := (step_effect s e).2.2.1
    rw [run_cons, ih, bubblesOfRun, newBubbles, hb]
    simp

/-- After a run the outbound log is the initial one followed by the frames of each
event, in the order of the events. -/
theorem run_sent (s : State) (events : List Event) :
    (run s events).sent = s.sent ++ sentOfRun s events := by
  induction events generalizing s with
  | nil => simp [run_nil, sentOfRun]
  | cons e es ih =>
    obtain ⟨ms, _, hm⟩ := (step_effect s e).2.2.2
    rw [run_cons, ih, sentOfRun, newSent, hm]
    simp

/-- C7 fails as stated: on a page just loaded, its socket still connecting, with ` Alice `
in the name field and `hello` in the compose field, a commit stores `Alice`, and the send
that follows appends no bubble at all. -/
theorem displayName_send_counterexample :
    (init aliceComposing).readyState = .CONNECTING ∧
    trim (init aliceComposing).chatInput = utf16 "hello" ∧
    (saveDisplayName (init aliceComposing)).displayName = utf16 "Alice" ∧
    (sendMessage (saveDisplayName (init aliceComposing))).messagesEl = [] := by
  decide

/-- C7, as amended: `saveDisplayName` stores exactly the trimmed name field, the empty
string when the field is blank; so the stored display name, a string in every state,
neither starts nor ends with white space in any state reached from the initial state by
any sequence of events.  With ` Alice ` in the name field a commit stores `Alice`, and a
send that follows on a compose field that is not blank, the channel being no longer
connecting, labels its bubble `Alice`. -/
theorem displayName_stored_trimmed (page s : State) (events : List Event) :
    (saveDisplayName s).displayName = trim s.displayNameInput ∧
    (s.displayNameInput.all isWhiteSpace = true → (saveDisplayName s).displayName = []) ∧
    isTrimmed (saveDisplayName s).displayName = true ∧
    isTrimmed (run (init page) events).displayName = true ∧
    (saveDisplayName { s with displayNameInput := utf16 " Alice " }).displayName = utf16 "Alice" ∧
    (s.readyState ≠ .CONNECTING → trim s.chatInput ≠ [] →
      (sendMessage (saveDisplayName { s with displayNameInput := utf16 " Alice " })).messagesEl =
        s.messagesEl ++ [{ className := utf16 "msg me", label := some (utf16 "Alice"),
                           body := trim s.chatInput }]) := by
  have hA : trim (utf16 " Alice ") = utf16 "Alice" := by decide
  have hA2 : utf16 "Alice" ≠ [] := by decide
  refine ⟨saveDisplayName_displayName s, ?_, ?_, ?_, ?_, ?_⟩
  · intro h
    rw [saveDisplayName_displayName, trim_eq_nil_of_all_whiteSpace _ h]
  · rw [saveDisplayName_displayName]
    exact isTrimmed_trim _
  · exact run_displayName_isTrimmed _ _ rfl
  · rw [saveDisplayName_displayName]
    exact hA
  · intro hr h
    have h2 : trim (saveDisplayName { s with displayNameInput := utf16 " Alice " }).chatInput ≠ [] := h
    have hcases : s.readyState = .OPEN ∨ s.readyState = .CLOSING ∨ s.readyState = .CLOSED := by
      cases hrs : s.readyState <;> simp_all
    rcases hcases with hrs | hrs | hrs
    · have h3 : (saveDisplayName { s with displayNameInput := utf16 " Alice " }).readyState
          = .OPEN := hrs
      rw [sendMessage_eq _ h2 h3]
      simp [saveDisplayName, hA, hA2]
    · have h3 : (saveDisplayName { s with displayNameInput := utf16 " Alice " }).readyState
          = .CLOSING := hrs
      rw [sendMessage_of_closed _ h2 (Or.inl h3)]
      simp [saveDisplayName, hA, hA2]
    · have h3 : (saveDisplayName { s with displayNameInput := utf16 " Alice " }).readyState
          = .CLOSED := hrs
      rw [sendMessage_of_closed _ h2 (Or.inr h3)]
      simp [saveDisplayName, hA, hA2]

/-- C7, as amended, at name field ` Alice ` and compose text `hello`, the channel open. -/
theorem displayName_stored_trimmed_witness :
    aliceComposingOpen.readyState ≠ .CONNECTING ∧ trim aliceComposingOpen.chatInput ≠ [] ∧
    (saveDisplayName aliceComposingOpen).displayName = utf16 "Alice" ∧
    (sendMessage (saveDisplayName aliceComposingOpen)).messagesEl =
      [{ className := utf16 "msg me", label := some (utf16 "Alice"), body := utf16 "hello" }] :=
  ⟨by decide, by decide,
   (displayName_stored_trimmed blankPage aliceComposingOpen []).2.2.2.2.1,
   ((displayName_stored_trimmed blankPage aliceComposingOpen []).2.2.2.2.2 (by decide)
      (by decide)).trans (by decide)⟩

/-- C8 fails as stated: on a page just loaded with `Alice` in its name field, nothing
committed yet, pressing Enter in the remote-port field leaves the stored display name
empty, and so does a send action, by click or by Enter, on the empty compose field; the
remote-port field losing focus does commit the name. -/
theorem displayName_commit_counterexample :
    trim aliceTyped.displayNameInput = utf16 "Alice" ∧
    aliceTyped.displayName = [] ∧
    (step aliceTyped (.keydown .remotePort enterKey)).displayName = [] ∧
    (step aliceTyped .clickSend).displayName = [] ∧
    (step aliceTyped (.keydown .chatInput enterKey)).displayName = [] ∧
    (step aliceTyped (.blur .remotePort)).displayName = utf16 "Alice" := by
  decide

/-- C8, as amended: in every state the stored display name becomes the trimmed name field
when the name field loses focus, when Enter is pressed in the name field, when the
remote-port field loses focus, on every connect action (also one that then sends
nothing), and on every send action, by click or by Enter without shift in the compose
field, whose compose field is not blank after trimming.  Pressing a key in the
remote-port field and a send action on a blank compose field change nothing. -/
theorem displayName_committed_by (s : State) (k : KeyEvent) :
    (step s (.blur .displayName)).displayName = trim s.displayNameInput ∧
    (k.key = utf16 "Enter" →
      (step s (.keydown .displayName k)).displayName = trim s.displayNameInput) ∧
    (step s (.blur .remotePort)).displayName = trim s.displayNameInput ∧
    (step s .clickConnect).displayName = trim s.displayNameInput ∧
    (trim s.chatInput ≠ [] → (step s .clickSend).displayName = trim s.displayNameInput) ∧
    (trim s.chatInput ≠ [] → k.key = utf16 "Enter" → k.shiftKey = false →
      (step s (.keydown .chatInput k)).displayName = trim s.displayNameInput) ∧
    step s (.keydown .remotePort k) = s ∧
    (trim s.chatInput = [] → step s .clickSend = s ∧ step s (.keydown .chatInput k) = s) := by
  refine ⟨saveDisplayName_displayName s, ?_, saveDisplayName_displayName s,
    btnConnect_onclick_displayName s, ?_, ?_, rfl, ?_⟩
  · intro hk
    show (displayNameInput_keydown s k).displayName = _
    simp [displayNameInput_keydown, hk, saveDisplayName_displayName]
  · intro h
    exact sendMessage_displayName s h
  · intro h hk hs
    show (chatInput_keydown s k).displayName = _
    simp only [chatInput_keydown, hk, hs]
    simpa using sendMessage_displayName s h
  · intro h
    refine ⟨sendMessage_of_blank s h, ?_⟩
    show chatInput_keydown s k = s
    unfold chatInput_keydown
    split
    · exact sendMessage_of_blank s h
    · rfl

/-- C8, as amended, at name field ` Alice `, compose text `hello` and the Enter key. -/
theorem displayName_committed_by_witness :
    enterKey.key = utf16 "Enter" ∧ trim aliceComposing.chatInput ≠ [] ∧
    (step aliceComposing (.keydown .displayName enterKey)).displayName = utf16 "Alice" ∧
    (step aliceComposing .clickSend).displayName = utf16 "Alice" ∧
    (step aliceComposing (.keydown .chatInput enterKey)).displayName = utf16 "Alice" :=
  ⟨rfl, by decide,
   ((displayName_committed_by aliceComposing enterKey).2.1 rfl).trans (by decide),
   ((displayName_committed_by aliceComposing enterKey).2.2.2.2.1 (by decide)).trans (by decide),
   ((displayName_committed_by aliceComposing enterKey).2.2.2.2.2.1 (by decide) rfl rfl).trans
     (by decide)⟩

/-- C9: the message list and the outbound log only grow, at their end and by at most one
entry per event: for every state and every event the list before the handler is the list
after it less at most one last bubble, and the same for the log; so what a run of events
has produced stays in place ahead of what later events produce, and after any run the two
lists are the initial ones followed by the entries of each event in the order of the
events. -/
theorem lists_append_only (s : State) (e : Event) (es1 es2 : List Event) :
    (∃ bs : List Bubble, bs.length ≤ 1 ∧ (step s e).messagesEl = s.messagesEl ++ bs) ∧
    (∃ ms : List Outbound, ms.length ≤ 1 ∧ (step s e).sent = s.sent ++ ms) ∧
    s.messagesEl <+: (step s e).messagesEl ∧
    s.sent <+: (step s e).sent ∧
    (run s es1).messagesEl <+: (run s (es1 ++ es2)).messagesEl ∧
    (run s es1).sent <+: (run s (es1 ++ es2)).sent ∧
    (run s es1).messagesEl = s.messagesEl ++ bubblesOfRun s es1 ∧
    (run s es1).sent = s.sent ++ sentOfRun s es1 := by
  obtain ⟨_, _, ⟨bs, hb1, hb2⟩, ⟨ms, hm1, hm2⟩⟩ := step_effect s e
  refine ⟨⟨bs, hb1, hb2⟩, ⟨ms, hm1, hm2⟩, ⟨bs, hb2.symm⟩, ⟨ms, hm2.symm⟩, ?_, ?_,
    run_messagesEl s es1, run_sent s es1⟩
  · rw [run_append, run_messagesEl (run s es1) es2]
    exact ⟨_, rfl⟩
  · rw [run_append, run_sent (run s es1) es2]
    exact ⟨_, rfl⟩

/-- C10: `state.connected` is false in every state reached from the initial state by any
sequence of events: no event changes it; `ws.onopen` and `ws.onclose` only set the status
text, to `Connected to local peer` and to `Disconnected`, so the field is false also right
after the channel opened. -/
theorem connected_stays_false (page s : State) (e : Event) (events : List Event) :
    (run (init page) events).connected = false ∧
    (step s e).connected = s.connected ∧
    ws.onopen s = { s with statusEl := utf16 "Connected to local peer" } ∧
    ws.onclose s = { s with statusEl := utf16 "Disconnected" } ∧
    (run (init page) (events ++ [Event.wsOpen])).connected = false ∧
    (run (init page) (events ++ [Event.wsOpen])).statusEl = utf16 "Connected to local peer" := by
  refine ⟨?_, (step_effect s e).1, rfl, rfl, ?_, ?_⟩
  · rw [run_connected]; rfl
  · rw [run_connected]; rfl
  · rw [run_append]; rfl

end P2PChat
